import Mathlib

/-!
# Screenshot service (`src/app.js`)

A shallow embedding of the `ScreenshotTool` class and of the `POST /screenshot`
handler.  JavaScript values are a small value type with JavaScript truthiness;
the browser, the file system and the console are an explicit state; every call
into the browser-automation library is recorded in a trace and its outcome
(resolve or reject) is an input of the model.
-/

namespace ScreenshotApi

/-! ## JavaScript values -/

/-- JSON-shaped JavaScript values, as they arrive in `req.body`.  Numbers are
the integer-valued ones; `num n` stands for the double nearest to `n`, which is
`n` itself below `2^53`.  Objects are flat records of integer fields, which is
what `viewportConfig` and `clipArea` are. -/
inductive JsVal where
  | undefined
  | null
  | bool (b : Bool)
  | num (n : Int)
  | str (s : String)
  | obj (fields : List (String × Int))
  deriving DecidableEq, Repr

/-- The rounding of a natural number to the nearest IEEE double, ties to the
even significand, as `JSON.parse` does; `none` is an overflow to `Infinity`.
It is the identity below `2^53`. -/
def roundDouble (m : Nat) : Option Nat :=
  if m < 2 ^ 53 then some m
  else
    let e := Nat.log2 m - 52
    let q := m / 2 ^ e
    let r := m % 2 ^ e
    let half := 2 ^ (e - 1)
    let q1 := if half < r ∨ (r = half ∧ q % 2 = 1) then q + 1 else q
    if 2 ^ 1024 ≤ q1 * 2 ^ e then none else some (q1 * 2 ^ e)

/-- Whether the decimal `v` reads back as the double `x` (at least `2^53`):
it lies within half a unit in the last place of `x`, the ends included when
the significand of `x` is even. -/
def readsBackAs (x v : Nat) : Bool :=
  let e := Nat.log2 x - 52
  let q := x / 2 ^ e
  let up := 4 * x + 2 * 2 ^ e
  let lo := if q = 2 ^ 52 then 4 * x - 2 ^ e else 4 * x - 2 * 2 ^ e
  if q % 2 = 0 then decide (lo ≤ 4 * v ∧ 4 * v ≤ up) else decide (lo < 4 * v ∧ 4 * v < up)

/-- The digits `s` and the exponent `n` of `Number::toString` for a double `x`
of at least `2^53`: the fewest digits `k` such that `s × 10^(n-k)` reads back
as `x`, and among those the value closest to `x`. -/
def shortestDigits (x : Nat) : Nat × Nat :=
  let nd := (Nat.toDigits 10 x).length
  let pick : Nat → Option (Nat × Nat) := fun i =>
    let k := i + 1
    let t := 10 ^ (nd - k)
    let s := x / t
    let okLow := readsBackAs x (s * t)
    let okHigh := readsBackAs x ((s + 1) * t)
    let high : Nat × Nat := if s + 1 = 10 ^ k then (1, nd + 1) else (s + 1, nd)
    if okLow ∧ okHigh then
      (if x - s * t < (s + 1) * t - x ∨ (x - s * t = (s + 1) * t - x ∧ s % 2 = 0)
        then some (s, nd) else some high)
    else if okLow then some (s, nd)
    else if okHigh then some high
    else none
  ((List.range nd).findSome? pick).getD (x, nd)

/-- The string of a non-negative integer-valued number (`Number::toString`),
after rounding to a double as `JSON.parse` does. -/
def natToString (m : Nat) : String :=
  match roundDouble m with
  | none => "Infinity"
  | some x =>
    if x < 2 ^ 53 then toString x
    else
      let (s, n) := shortestDigits x
      let digits := toString s
      let k := digits.length
      if n ≤ 21 then digits ++ String.mk (List.replicate (n - k) '0')
      else if k = 1 then digits ++ "e+" ++ toString (n - 1)
      else digits.take 1 ++ "." ++ digits.drop 1 ++ "e+" ++ toString (n - 1)

/-- The string of an integer-valued number. -/
def numberToString (n : Int) : String :=
  if n < 0 then "-" ++ natToString n.natAbs else natToString n.natAbs

namespace JsVal

/-- JavaScript truthiness, the test behind `if (x)`, `!x`, `x ? a : b` and `x || y`. -/
def truthy : JsVal → Bool
  | undefined => false
  | null => false
  | bool b => b
  | num n => n != 0
  | str s => s != ""
  | obj _ => true

/-- Default of a destructured field: `{ x = d }` takes `d` only when the field is `undefined`. -/
def orDefault (v d : JsVal) : JsVal :=
  if v = undefined then d else v

/-- String conversion as done inside a template literal.  An object with an
own `toString` property (here never a function) cannot be converted: that is a
`TypeError`, given as its message. -/
def toStr : JsVal → Except String String
  | undefined => .ok "undefined"
  | null => .ok "null"
  | bool b => .ok (if b then "true" else "false")
  | num n => .ok (numberToString n)
  | str s => .ok s
  | obj fields =>
    if fields.any (fun f => f.1 == "toString") then
      .error "Cannot convert object to primitive value"
    else .ok "[object Object]"

end JsVal

/-! ## The browser, the file system and the console -/

/-- The object literal `screenshotOptions` (lines 79-92).  `path` and `encoding`
are always present (possibly `undefined`); `quality` and `clip` are fields that
are only assigned conditionally, so an absent field is `none`. -/
structure ScreenshotOptions where
  path : JsVal
  fullPage : JsVal
  type : JsVal
  encoding : JsVal
  quality : Option JsVal
  clip : Option JsVal
  deriving DecidableEq, Repr

/-- Calls into the browser-automation library.  Handles are numbers. -/
inductive Call where
  | launch
  | newPage (browser : Nat)
  | setViewport (page : Nat) (viewport : JsVal)
  | goto (page : Nat) (url : JsVal) (timeout : JsVal)
  | waitForSelector (page : Nat) (selector : JsVal) (timeout : JsVal)
  | query (page : Nat) (selector : JsVal)
  | elementScreenshot (page : Nat) (options : ScreenshotOptions)
  | pageScreenshot (page : Nat) (options : ScreenshotOptions)
  | pageClose (page : Nat)
  | browserClose (browser : Nat)
  deriving DecidableEq, Repr

/-- The process state: the field `this.browser` of the one `screenshotTool`,
the browsers and pages that exist, the files on disk, the trace of library
calls and the console output. -/
structure State where
  browser : Option Nat
  nextId : Nat
  launched : List Nat
  terminated : List Nat
  openPages : List Nat
  files : List String
  trace : List Call
  console : List String
  deriving DecidableEq, Repr

/-- The state right after `new ScreenshotTool()` on a clean machine. -/
def State.init : State :=
  { browser := none, nextId := 0, launched := [], terminated := [],
    openPages := [], files := [], trace := [], console := [] }

/-- An asynchronous computation run to completion: it ends in a value or in a
thrown error message, and the state survives a throw. -/
def Js (α : Type) : Type := State → Except String α × State

namespace Js

/-- Resolve with a value. -/
def ret {α : Type} (a : α) : Js α := fun s => (.ok a, s)

/-- Sequencing (`await` then continue); a throw skips the continuation. -/
def andThen {α β : Type} (m : Js α) (f : α → Js β) : Js β := fun s =>
  match m s with
  | (.ok a, s1) => f a s1
  | (.error e, s1) => (.error e, s1)

/-- The statement `throw new Error(msg)`. -/
def raise {α : Type} (msg : String) : Js α := fun s => (.error msg, s)

/-- Record a library call in the trace. -/
def emit (c : Call) : Js Unit := fun s =>
  (.ok (), { s with trace := s.trace ++ [c] })

/-- A library call that either resolves or rejects with the given message. -/
def settle (err : Option String) : Js Unit :=
  match err with
  | none => ret ()
  | some msg => raise msg

/-- Read the state. -/
def get : Js State := fun s => (.ok s, s)

/-- Update the state. -/
def modify (f : State → State) : Js Unit := fun s => (.ok (), f s)

end Js

instance : Monad Js where
  pure := Js.ret
  bind := Js.andThen

/-! ## `ScreenshotTool` -/

/-- The method `initialize()` (lines 38-43; the bare name is a reserved word
here): launch only when `this.browser` is falsy, then return `this.browser`.
`launchErr` is the outcome of `puppeteer.launch`. -/
def initializeTool (launchErr : Option String) : Js Nat := do
  let s ← Js.get
  match s.browser with
  | some b => pure b
  | none =>
    Js.emit Call.launch
    Js.settle launchErr
    Js.modify fun t =>
      { t with browser := some t.nextId, nextId := t.nextId + 1,
               launched := t.nextId :: t.launched }
    pure s.nextId

/-- The method `close()` (lines 45-50): when `this.browser` is set, `await
this.browser.close()` and then clear the field.  `closeErr` is the outcome of
`browser.close()`. -/
def close (closeErr : Option String) : Js Unit := do
  let s ← Js.get
  match s.browser with
  | some b =>
    Js.emit (Call.browserClose b)
    Js.settle closeErr
    Js.modify fun t =>
      { t with browser := none, terminated := b :: t.terminated }
  | none => pure ()

/-- The argument object of `takeScreenshot`; an absent property is `undefined`. -/
structure Config where
  url : JsVal
  outputPath : JsVal := .undefined
  fullPage : JsVal := .undefined
  format : JsVal := .undefined
  quality : JsVal := .undefined
  viewportConfig : JsVal := .undefined
  selector : JsVal := .undefined
  waitForSelector : JsVal := .undefined
  clipArea : JsVal := .undefined
  timeout : JsVal := .undefined
  returnBase64 : JsVal := .undefined
  deriving DecidableEq, Repr

/-- Outcomes of the library calls one `takeScreenshot` may make: `some msg`
is a rejection with that message.  `query` is `page.$`: it rejects, or tells
whether an element was found.  `screenshot` rejects or yields the image data;
`fileWritten` says whether the file asked for by `path` is on disk afterwards. -/
structure Outcomes where
  launch : Option String := none
  newPage : Option String := none
  setViewport : Option String := none
  goto : Option String := none
  waitForSelector : Option String := none
  query : Except String Bool := .ok true
  screenshot : Except String String := .ok "data"
  fileWritten : Bool := true

/-- What `takeScreenshot` returns: the raw screenshot result (base64 mode),
`{ success: true, path }` or `{ success: false, error }`. -/
inductive ShotResult where
  | raw (data : String)
  | saved (path : JsVal)
  | failure (error : String)
  deriving DecidableEq, Repr

/-- The property read `result.success`, as a truth value: a string has no such
property. -/
def ShotResult.success : ShotResult → Bool
  | .raw _ => false
  | .saved _ => true
  | .failure _ => false

/-- Lines 79-92: the options object built for the capture. -/
def screenshotOptions (returnBase64 outputPath fullPage format quality clipArea : JsVal) :
    ScreenshotOptions :=
  let o : ScreenshotOptions :=
    { path := if returnBase64.truthy then .undefined else outputPath,
      fullPage := fullPage,
      type := format,
      encoding := if returnBase64.truthy then .str "base64" else .undefined,
      quality := none,
      clip := none }
  let o :=
    if format = .str "jpeg" ∨ format = .str "webp" then { o with quality := some quality }
    else o
  if clipArea.truthy then { o with clip := some clipArea } else o

/-- The effect of a screenshot call: it rejects, or resolves with the data and
(when a `path` string was given and the write went through) leaves the file on disk. -/
def doScreenshot (options : ScreenshotOptions) (o : Outcomes) : Js String :=
  match o.screenshot with
  | .error msg => Js.raise msg
  | .ok data => do
    match options.path with
    | .str p =>
      if o.fileWritten then
        Js.modify fun t => { t with files := p :: t.files.filter (fun f => f != p) }
      else pure ()
    | _ => pure ()
    pure data

/-- The call `this.browser.newPage()` (line 67): it rejects, or opens a page
in the browser and resolves with its handle. -/
def newPage (browser : Nat) (err : Option String) : Js Nat := do
  Js.emit (Call.newPage browser)
  Js.settle err
  let s ← Js.get
  Js.modify fun t => { t with nextId := t.nextId + 1, openPages := t.nextId :: t.openPages }
  pure s.nextId

/-- Lines 68-105 of `takeScreenshot`, on the page just opened, with the
parameter defaults of lines 52-64 applied. -/
def captureOn (c : Config) (o : Outcomes) (page : Nat) : Js ShotResult := do
  let outputPath := c.outputPath.orDefault (.str "screenshot.png")
  let fullPage := c.fullPage.orDefault (.bool false)
  let format := c.format.orDefault (.str "png")
  let quality := c.quality.orDefault (.num 80)
  let viewportConfig := c.viewportConfig.orDefault
    (.obj [("width", 1920), ("height", 1080), ("deviceScaleFactor", 1)])
  let selector := c.selector.orDefault .null
  let waitForSelector := c.waitForSelector.orDefault .null
  let clipArea := c.clipArea.orDefault .null
  let timeout := c.timeout.orDefault (.num 30000)
  let returnBase64 := c.returnBase64.orDefault (.bool false)
  Js.emit (Call.setViewport page viewportConfig)
  Js.settle o.setViewport
  Js.emit (Call.goto page c.url timeout)
  Js.settle o.goto
  if waitForSelector.truthy then
    Js.emit (Call.waitForSelector page waitForSelector timeout)
    Js.settle o.waitForSelector
  let options := screenshotOptions returnBase64 outputPath fullPage format quality clipArea
  let result ←
    if selector.truthy then do
      Js.emit (Call.query page selector)
      match o.query with
      | .error msg => Js.raise msg
      | .ok false =>
        match selector.toStr with
        | .ok text => Js.raise ("Element with selector \"" ++ text ++ "\" not found")
        | .error typeError => Js.raise typeError
      | .ok true =>
        Js.emit (Call.elementScreenshot page options)
        doScreenshot options o
    else do
      Js.emit (Call.pageScreenshot page options)
      doScreenshot options o
  pure (if returnBase64.truthy then ShotResult.raw result else ShotResult.saved outputPath)

/-- The `try` block of `takeScreenshot` (lines 66-105): ensure the browser,
open a page in it, capture on that page. -/
def captureBody (c : Config) (o : Outcomes) : Js ShotResult := do
  let browser ← initializeTool o.launch
  let page ← newPage browser o.newPage
  captureOn c o page

/-- The method `takeScreenshot` (lines 52-110): the `try` block, and the
`catch` that logs the error and turns it into
`{ success: false, error: error.message }`. -/
def takeScreenshot (c : Config) (o : Outcomes) (s : State) : ShotResult × State :=
  match captureBody c o s with
  | (.ok r, s1) => (r, s1)
  | (.error msg, s1) =>
    (.failure msg, { s1 with console := s1.console ++ ["Screenshot capture failed: " ++ msg] })

/-! ## The `POST /screenshot` handler -/

/-- What the handler reads from its host: the clock `Date.now()`, the function
`filename ↦ path.join(__dirname, 'screenshots', filename)`, and the message of
the `TypeError` that `path.join` throws on an argument that is not a string. -/
structure Host where
  now : Nat
  join : String → String
  joinError : JsVal → String

/-- Outcomes of delivering a file: the `err` handed to the `sendFile` callback
and the outcome of `fsPromises.unlink`. -/
structure Delivery where
  send : Option String := none
  unlink : Option String := none

/-- The bodies the handler sends. -/
inductive ResBody where
  | errorOnly (error : String)
  | result (r : ShotResult)
  | base64 (r : ShotResult)
  | file (path : String)
  deriving DecidableEq, Repr

/-- The response: `res.statusCode` (200 unless `res.status` was called) and the body. -/
structure Response where
  status : Nat
  body : ResBody
  deriving DecidableEq, Repr

/-- Write a line on the console (`console.log` / `console.error`). -/
def consoleLine (line : String) : Js Unit :=
  Js.modify fun t => { t with console := t.console ++ [line] }

/-- Line 156: `outputPath || screenshot-<Date.now()>.<format>`.  The template
literal is only evaluated when `outputPath` is falsy, and throws when `format`
cannot be converted to a string. -/
def filename (h : Host) (body : Config) : Except String JsVal :=
  if body.outputPath.truthy then .ok body.outputPath
  else
    match (body.format.orDefault (.str "png")).toStr with
    | .ok format => .ok (.str ("screenshot-" ++ numberToString h.now ++ "." ++ format))
    | .error typeError => .error typeError

/-- Lines 159-171: the argument object the handler passes to `takeScreenshot`. -/
def captureConfig (body : Config) (outputFilePath : String) : Config :=
  { url := body.url, outputPath := .str outputFilePath, fullPage := body.fullPage,
    format := body.format.orDefault (.str "png"), quality := body.quality,
    selector := body.selector, waitForSelector := body.waitForSelector,
    returnBase64 := body.returnBase64.orDefault (.bool false),
    viewportConfig := body.viewportConfig, clipArea := body.clipArea,
    timeout := body.timeout }

/-- The `try` block of the handler (lines 138-198) up to and including the call
`res.sendFile(outputFilePath, callback)`; `body` is `req.body`. -/
def handlerBody (h : Host) (body : Config) (o : Outcomes) : Js Response := do
  let returnBase64 := body.returnBase64.orDefault (.bool false)
  if !body.url.truthy then
    return { status := 400, body := .errorOnly "URL is required" }
  let outputFilePath ←
    match filename h body with
    | .error typeError => Js.raise typeError
    | .ok (.str f) => pure (h.join f)
    | .ok v => Js.raise (h.joinError v)
  let result ← fun s =>
    let r := takeScreenshot (captureConfig body outputFilePath) o s
    (Except.ok r.1, r.2)
  if !result.success && !returnBase64.truthy then
    return { status := 500, body := .result result }
  if returnBase64.truthy then
    return { status := 200, body := .base64 result }
  let s ← Js.get
  if !s.files.contains outputFilePath then
    return { status := 500, body := .errorOnly "Screenshot file not found" }
  return { status := 200, body := .file outputFilePath }

/-- The handler (lines 136-203) up to the moment it has answered or has handed
the file to `res.sendFile`: the `try` block, and the `catch` that logs and
answers 500 with `{ error: error.message }`. -/
def postScreenshot (h : Host) (body : Config) (o : Outcomes) (s : State) : Response × State :=
  match handlerBody h body o s with
  | (.ok r, s1) => (r, s1)
  | (.error msg, s1) =>
    ({ status := 500, body := .errorOnly msg },
     { s1 with console := s1.console ++ ["Screenshot error: " ++ msg] })

/-- The callback given to `res.sendFile` (lines 187-198): log a send error,
then unlink the file and log the deletion or its error.  It makes no call on `res`.
An unlink of a file that is not there fails. -/
def sendFileCallback (outputFilePath : String) (d : Delivery) : Js Unit := do
  match d.send with
  | some err => consoleLine ("Error sending file: " ++ err)
  | none => pure ()
  let s ← Js.get
  match (if s.files.contains outputFilePath then d.unlink else some "ENOENT") with
  | none =>
    Js.modify fun t => { t with files := t.files.filter (fun f => f != outputFilePath) }
    consoleLine ("Deleted: " ++ outputFilePath)
  | some deleteErr => consoleLine ("Error deleting file: " ++ deleteErr)

/-- A whole request: the handler, then (in file mode) the `sendFile` callback.
The response is the one the handler produced; the callback cannot touch it. -/
def serve (h : Host) (body : Config) (o : Outcomes) (d : Delivery) (s : State) :
    Response × State :=
  let r := postScreenshot h body o s
  match r.1.body with
  | .file path => (r.1, (sendFileCallback path d r.2).2)
  | _ => r

/-! ## Sequential runs of the tool -/

/-- One call on the tool, with the outcomes of the library calls it makes. -/
inductive Op where
  | init (launchErr : Option String)
  | shot (c : Config) (o : Outcomes)
  | close (closeErr : Option String)

/-- Whether the call is `close()`. -/
def Op.isClose : Op → Bool
  | .close _ => true
  | _ => false

/-- Run one call; a rejection of `initialize()` or `close()` is left to the caller
and does not change the state any further. -/
def Op.run : Op → State → State
  | .init e, s => (initializeTool e s).2
  | .shot c o, s => (takeScreenshot c o s).2
  | .close e, s => (ScreenshotApi.close e s).2

/-- Run calls one after the other. -/
def runOps (ops : List Op) (s : State) : State :=
  ops.foldl (fun t op => op.run t) s

/-- Whether the `puppeteer.launch` the call would make resolves. -/
def Op.launchResolves : Op → Bool
  | .init e => e.isNone
  | .shot _ o => o.launch.isNone
  | .close _ => true

/-- Number of `puppeteer.launch` calls recorded in the trace. -/
def launchCalls (s : State) : Nat :=
  s.trace.count Call.launch

/-! ## Vocabulary of the statements -/

/-- The options object that lines 79-92 build from the arguments of
`takeScreenshot`, defaults applied. -/
def Config.options (c : Config) : ScreenshotOptions :=
  screenshotOptions (c.returnBase64.orDefault (.bool false))
    (c.outputPath.orDefault (.str "screenshot.png")) (c.fullPage.orDefault (.bool false))
    (c.format.orDefault (.str "png")) (c.quality.orDefault (.num 80))
    (c.clipArea.orDefault .null)

/-- The options a call hands to the browser, when it is a screenshot call. -/
def Call.options : Call → Option ScreenshotOptions
  | .elementScreenshot _ options => some options
  | .pageScreenshot _ options => some options
  | _ => none

/-- The library calls that one `takeScreenshot` adds to the trace. -/
def newCalls (c : Config) (o : Outcomes) (s : State) : List Call :=
  (takeScreenshot c o s).2.trace.drop s.trace.length

/-- The library calls `takeScreenshot` makes on the page it opened:
`setViewport`, `goto`, `waitForSelector`, `$` and a screenshot call carrying
the options of the config. -/
def PageCall (c : Config) : Call → Prop
  | .setViewport _ _ => True
  | .goto _ _ _ => True
  | .waitForSelector _ _ _ => True
  | .query _ _ => True
  | .elementScreenshot _ options => options = c.options
  | .pageScreenshot _ options => options = c.options
  | _ => False

/-- The library calls `takeScreenshot` can make: a launch, a `newPage`, and the
calls on the page.  Neither `page.close` nor `browser.close`. -/
def CaptureCall (c : Config) (call : Call) : Prop :=
  call = .launch ∨ (∃ browser, call = .newPage browser) ∨ PageCall c call

/-- Every run of `m` takes a state to one related to it by `R`. -/
structure Js.Steps {α : Type} (R : State → State → Prop) (m : Js α) : Prop where
  run : ∀ s, R s (m s).2

/-- A reflexive and transitive relation on states. -/
structure Frame (R : State → State → Prop) : Prop where
  refl : ∀ s, R s s
  trans : ∀ a b c, R a b → R b c → R a c

/-- The trace grew by calls that all satisfy `P`. -/
def Extends (P : Call → Prop) (s t : State) : Prop :=
  ∃ suffix, t.trace = s.trace ++ suffix ∧ ∀ call ∈ suffix, P call

/-- The browser handle, the browsers and the pages are untouched. -/
def SameBrowser (s t : State) : Prop :=
  t.browser = s.browser ∧ t.launched = s.launched ∧ t.terminated = s.terminated ∧
    t.openPages = s.openPages ∧ t.nextId = s.nextId

/-- The state after `browser.newPage()` resolved: the call is in the trace and
the new page, numbered `s.nextId`, is open. -/
def pageOpened (browser : Nat) (s : State) : State :=
  { s with trace := s.trace ++ [Call.newPage browser], nextId := s.nextId + 1,
           openPages := s.nextId :: s.openPages }

/-- A host for the examples. -/
def exampleHost : Host :=
  { now := 7, join := fun f => "/app/screenshots/" ++ f,
    joinError := fun _ => "The \"path\" argument must be of type string" }

/-- Whether `browser.newPage()` is reached and resolves. -/
def pageResolves (o : Outcomes) (s : State) : Bool :=
  (s.browser.isSome || o.launch.isNone) && o.newPage.isNone

/-- A rectangle for the examples. -/
def exampleRect : JsVal :=
  .obj [("x", 0), ("y", 0), ("width", 10), ("height", 10)]

/-- A request for one element, with a clip rectangle as well. -/
def clipConfig : Config :=
  { url := .str "https://example.com", selector := .str "#main", clipArea := exampleRect }

/-- The options `takeScreenshot` builds for `clipConfig`. -/
def clipOptions : ScreenshotOptions :=
  { path := .str "screenshot.png", fullPage := .bool false, type := .str "png",
    encoding := .undefined, quality := none, clip := some exampleRect }

/-- A JPEG request with `quality` 50. -/
def jpegConfig : Config :=
  { url := .str "https://example.com", format := .str "jpeg", quality := .num 50 }

/-- The options `takeScreenshot` builds for `jpegConfig`. -/
def jpegOptions : ScreenshotOptions :=
  { path := .str "screenshot.png", fullPage := .bool false, type := .str "jpeg",
    encoding := .undefined, quality := some (.num 50), clip := none }

/-- Two captures and an explicit `initialize()` in a row. -/
def exampleRun : List Op :=
  [.shot { url := .str "https://example.com" } {}, .init none,
   .shot { url := .str "https://example.org" } {}]

/-- A page address whose host does not resolve. -/
def badDomain : JsVal := .str "https://bad-domain-xyz.invalid"

/-- The navigation on the page rejects. -/
def gotoFails : Outcomes := { goto := some "net::ERR_NAME_NOT_RESOLVED" }

/-- A delivery in which the send reports an error and the unlink resolves. -/
def abortedSend : Delivery := { send := some "Request aborted" }

/-- The page is open and on the requested address: `newPage`, `setViewport`
and `goto` resolved. -/
def Outcomes.navigated (o : Outcomes) : Prop :=
  o.newPage = none ∧ o.setViewport = none ∧ o.goto = none

/-- The wait asked for by `waitForSelector`, if any, resolved. -/
def Outcomes.waited (c : Config) (o : Outcomes) : Prop :=
  c.waitForSelector.truthy = true → o.waitForSelector = none

/-- The step of `takeScreenshot` that fails once the browser handle is there,
with the message of its error; each case lists the steps before it as passed. -/
inductive Rejects (c : Config) (o : Outcomes) : String → Prop
  | newPage (msg : String) : o.newPage = some msg → Rejects c o msg
  | setViewport (msg : String) :
      o.newPage = none → o.setViewport = some msg → Rejects c o msg
  | goto (msg : String) :
      o.newPage = none → o.setViewport = none → o.goto = some msg → Rejects c o msg
  | waitForSelector (msg : String) :
      o.navigated → c.waitForSelector.truthy = true → o.waitForSelector = some msg →
      Rejects c o msg
  | query (msg : String) :
      o.navigated → o.waited c → c.selector.truthy = true → o.query = .error msg →
      Rejects c o msg
  | notFound (text : String) :
      o.navigated → o.waited c → c.selector.truthy = true → o.query = .ok false →
      c.selector.toStr = .ok text →
      Rejects c o ("Element with selector \"" ++ text ++ "\" not found")
  | notFoundTypeError (msg : String) :
      o.navigated → o.waited c → c.selector.truthy = true → o.query = .ok false →
      c.selector.toStr = .error msg → Rejects c o msg
  | screenshot (msg : String) :
      o.navigated → o.waited c → (c.selector.truthy = true → o.query = .ok true) →
      o.screenshot = .error msg → Rejects c o msg

/-- The tool after `exampleRun`, on which a `close()` was then tried whose
`browser.close()` rejected. -/
def closeRejected : State :=
  (close (some "Protocol error") (runOps exampleRun State.init)).2

/-! ## Frames of the monadic steps -/

theorem Frame.extends (P : Call → Prop) : Frame (Extends P) where
  refl s := ⟨[], by simp, by simp⟩
  trans a b c := by
    rintro ⟨l1, h1, p1⟩ ⟨l2, h2, p2⟩
    refine ⟨l1 ++ l2, by rw [h2, h1, List.append_assoc], ?_⟩
    intro call hc
    rcases List.mem_append.mp hc with h | h
    · exact p1 call h
    · exact p2 call h

theorem Frame.sameBrowser : Frame SameBrowser where
  refl s := ⟨rfl, rfl, rfl, rfl, rfl⟩
  trans a b c := by
    rintro ⟨h1, h2, h3, h4, h5⟩ ⟨k1, k2, k3, k4, k5⟩
    exact ⟨k1.trans h1, k2.trans h2, k3.trans h3, k4.trans h4, k5.trans h5⟩

theorem Frame.and {R Q : State → State → Prop} (hR : Frame R) (hQ : Frame Q) :
    Frame (fun s t => R s t ∧ Q s t) where
  refl s := ⟨hR.refl s, hQ.refl s⟩
  trans a b c := fun h k => ⟨hR.trans a b c h.1 k.1, hQ.trans a b c h.2 k.2⟩

theorem Js.steps_pure {R : State → State → Prop} {α : Type} (hR : Frame R) (a : α) :
    Js.Steps R (pure a : Js α) :=
  ⟨fun s => hR.refl s⟩

theorem Js.steps_raise {R : State → State → Prop} {α : Type} (hR : Frame R) (msg : String) :
    Js.Steps R (Js.raise msg : Js α) :=
  ⟨fun s => hR.refl s⟩

theorem Js.steps_settle {R : State → State → Prop} (hR : Frame R) (err : Option String) :
    Js.Steps R (Js.settle err) := by
  constructor
  intro s
  cases err <;> exact hR.refl s

theorem Js.steps_bind {R : State → State → Prop} {α β : Type} (hR : Frame R) {m : Js α}
    {f : α → Js β} (hm : Js.Steps R m) (hf : ∀ a, Js.Steps R (f a)) :
    Js.Steps R (m >>= f) := by
  constructor
  intro s
  show R s (Js.andThen m f s).2
  unfold Js.andThen
  have h1 := hm.run s
  rcases h : m s with ⟨r, s1⟩
  rw [h] at h1
  cases r with
  | error e => exact h1
  | ok a => exact hR.trans _ _ _ h1 ((hf a).run s1)

theorem Js.steps_ite {R : State → State → Prop} {α : Type} {c : Prop} [Decidable c]
    {a b : Js α} (ha : Js.Steps R a) (hb : Js.Steps R b) : Js.Steps R (if c then a else b) := by
  split
  · exact ha
  · exact hb

theorem Js.steps_emit {R : State → State → Prop} (c : Call)
    (h : ∀ s : State, R s { s with trace := s.trace ++ [c] }) :
    Js.Steps R (Js.emit c) :=
  ⟨fun s => h s⟩

theorem Js.steps_modify {R : State → State → Prop} (f : State → State)
    (h : ∀ s : State, R s (f s)) :
    Js.Steps R (Js.modify f) :=
  ⟨fun s => h s⟩

theorem extends_emit (P : Call → Prop) (c : Call) (h : P c) (s : State) :
    Extends P s { s with trace := s.trace ++ [c] } :=
  ⟨[c], rfl, by simpa using h⟩

theorem extends_mono {P Q : Call → Prop} (h : ∀ call, P call → Q call) (s t : State) :
    Extends P s t → Extends Q s t := by
  rintro ⟨l, hl, hP⟩
  exact ⟨l, hl, fun call hc => h call (hP call hc)⟩

theorem extends_same (P : Call → Prop) (s t : State) (h : t.trace = s.trace) : Extends P s t :=
  ⟨[], by simpa using h, by simp⟩

theorem doScreenshot_steps (P : Call → Prop) (options : ScreenshotOptions) (o : Outcomes) :
    Js.Steps (fun s t => SameBrowser s t ∧ Extends P s t) (doScreenshot options o) := by
  have hR := Frame.and Frame.sameBrowser (Frame.extends P)
  unfold doScreenshot
  repeat' first
    | apply Js.steps_pure hR
    | apply Js.steps_raise hR
    | apply Js.steps_modify
    | apply Js.steps_ite
    | split
    | refine Js.steps_bind hR ?_ (fun _ => ?_)
  all_goals
    intro s
    exact ⟨⟨rfl, rfl, rfl, rfl, rfl⟩, extends_same _ _ _ rfl⟩

/-- On the open page, `takeScreenshot` touches neither the browser handle nor
the set of browsers and pages, and only makes page calls. -/
theorem captureOn_steps (c : Config) (o : Outcomes) (page : Nat) :
    Js.Steps (fun s t => SameBrowser s t ∧ Extends (PageCall c) s t) (captureOn c o page) := by
  have hR := Frame.and Frame.sameBrowser (Frame.extends (PageCall c))
  unfold captureOn
  repeat' first
    | apply Js.steps_pure hR
    | apply Js.steps_raise hR
    | apply Js.steps_settle hR
    | apply doScreenshot_steps
    | apply Js.steps_emit
    | apply Js.steps_ite
    | split
    | refine Js.steps_bind hR ?_ (fun _ => ?_)
  all_goals
    intro s
    exact ⟨⟨rfl, rfl, rfl, rfl, rfl⟩,
      extends_emit _ _ (by simp [PageCall, Config.options]) s⟩

/-! ## The steps of `takeScreenshot` before the page exists -/

theorem Js.run_bind {α β : Type} (m : Js α) (f : α → Js β) (s : State) :
    (m >>= f) s = match m s with
      | (.ok a, s1) => f a s1
      | (.error e, s1) => (.error e, s1) := rfl

theorem Js.run_pure {α : Type} (a : α) (s : State) : (pure a : Js α) s = (.ok a, s) := rfl

theorem Js.run_get (s : State) : Js.get s = (.ok s, s) := rfl

theorem Js.run_emit (c : Call) (s : State) :
    Js.emit c s = (.ok (), { s with trace := s.trace ++ [c] }) := rfl

theorem Js.run_modify (f : State → State) (s : State) : Js.modify f s = (.ok (), f s) := rfl

theorem Js.run_raise {α : Type} (msg : String) (s : State) :
    (Js.raise msg : Js α) s = (.error msg, s) := rfl

theorem Js.run_settle_none (s : State) : Js.settle none s = (.ok (), s) := rfl

theorem Js.run_settle_some (msg : String) (s : State) :
    Js.settle (some msg) s = (.error msg, s) := rfl

theorem initializeTool_some (e : Option String) (s : State) (b : Nat) (hb : s.browser = some b) :
    initializeTool e s = (.ok b, s) := by
  unfold initializeTool
  simp [Js.run_bind, Js.run_get, Js.run_pure, hb]

theorem initializeTool_none_ok (s : State) (hb : s.browser = none) :
    initializeTool none s =
      (.ok s.nextId,
       { s with trace := s.trace ++ [Call.launch], browser := some s.nextId,
                nextId := s.nextId + 1, launched := s.nextId :: s.launched }) := by
  unfold initializeTool
  simp [Js.run_bind, Js.run_get, Js.run_pure, Js.run_emit, Js.run_modify, Js.run_settle_none, hb]

theorem initializeTool_none_error (msg : String) (s : State) (hb : s.browser = none) :
    initializeTool (some msg) s = (.error msg, { s with trace := s.trace ++ [Call.launch] }) := by
  unfold initializeTool
  simp [Js.run_bind, Js.run_get, Js.run_emit, Js.run_settle_some, hb]

theorem newPage_ok (b : Nat) (s : State) : newPage b none s = (.ok s.nextId, pageOpened b s) := rfl

theorem newPage_error (b : Nat) (msg : String) (s : State) :
    newPage b (some msg) s = (.error msg, { s with trace := s.trace ++ [Call.newPage b] }) := rfl

theorem captureBody_launch_failed (c : Config) (o : Outcomes) (s s1 : State) (msg : String)
    (h : initializeTool o.launch s = (.error msg, s1)) :
    captureBody c o s = (.error msg, s1) := by
  unfold captureBody
  simp [Js.run_bind, h]

theorem captureBody_newPage_failed (c : Config) (o : Outcomes) (s s1 : State) (b : Nat)
    (msg : String) (h : initializeTool o.launch s = (.ok b, s1)) (hp : o.newPage = some msg) :
    captureBody c o s = (.error msg, { s1 with trace := s1.trace ++ [Call.newPage b] }) := by
  unfold captureBody
  simp [Js.run_bind, h, hp, newPage_error]

theorem captureBody_on_page (c : Config) (o : Outcomes) (s s1 : State) (b : Nat)
    (h : initializeTool o.launch s = (.ok b, s1)) (hp : o.newPage = none) :
    captureBody c o s = captureOn c o s1.nextId (pageOpened b s1) := by
  unfold captureBody
  simp [Js.run_bind, h, hp, newPage_ok]

/-- The `catch` of `takeScreenshot` only writes on the console. -/
theorem takeScreenshot_fields (c : Config) (o : Outcomes) (s : State) :
    (takeScreenshot c o s).2.browser = (captureBody c o s).2.browser ∧
    (takeScreenshot c o s).2.launched = (captureBody c o s).2.launched ∧
    (takeScreenshot c o s).2.terminated = (captureBody c o s).2.terminated ∧
    (takeScreenshot c o s).2.openPages = (captureBody c o s).2.openPages ∧
    (takeScreenshot c o s).2.trace = (captureBody c o s).2.trace ∧
    (takeScreenshot c o s).2.files = (captureBody c o s).2.files := by
  unfold takeScreenshot
  rcases captureBody c o s with ⟨r | r, u⟩ <;> simp

/-- Outcome of `initialize()` as a case distinction on the handle and on the launch. -/
theorem initializeTool_cases (e : Option String) (s : State) :
    (∃ b, s.browser = some b ∧ initializeTool e s = (.ok b, s)) ∨
    (s.browser = none ∧ e = none ∧ initializeTool e s =
      (.ok s.nextId,
       { s with trace := s.trace ++ [Call.launch], browser := some s.nextId,
                nextId := s.nextId + 1, launched := s.nextId :: s.launched })) ∨
    (∃ msg, s.browser = none ∧ e = some msg ∧
      initializeTool e s = (.error msg, { s with trace := s.trace ++ [Call.launch] })) := by
  rcases Option.eq_none_or_eq_some s.browser with hb | ⟨b, hb⟩
  · cases e with
    | none => exact Or.inr (Or.inl ⟨hb, rfl, initializeTool_none_ok s hb⟩)
    | some msg => exact Or.inr (Or.inr ⟨msg, hb, rfl, initializeTool_none_error msg s hb⟩)
  · exact Or.inl ⟨b, hb, initializeTool_some e s b hb⟩

/-- What `initialize()` does to the state, whatever the outcome: pages and
terminated browsers are untouched and the trace grows by at most a launch. -/
theorem initializeTool_effect (c : Config) (e : Option String) (s : State) :
    (initializeTool e s).2.terminated = s.terminated ∧
    (initializeTool e s).2.openPages = s.openPages ∧
    Extends (CaptureCall c) s (initializeTool e s).2 := by
  rcases initializeTool_cases e s with ⟨b, _, h⟩ | ⟨_, _, h⟩ | ⟨msg, _, _, h⟩ <;> rw [h]
  · exact ⟨rfl, rfl, (Frame.extends _).refl s⟩
  · exact ⟨rfl, rfl, extends_emit _ _ (by simp [CaptureCall]) _⟩
  · exact ⟨rfl, rfl, extends_emit _ _ (by simp [CaptureCall]) _⟩

/-- The effect of the `try` block on the browser, the pages and the trace. -/
theorem captureBody_effect (c : Config) (o : Outcomes) (s : State) :
    (captureBody c o s).2.browser = (initializeTool o.launch s).2.browser ∧
    (captureBody c o s).2.launched = (initializeTool o.launch s).2.launched ∧
    (captureBody c o s).2.terminated = s.terminated ∧
    (captureBody c o s).2.openPages =
      (if pageResolves o s then (initializeTool o.launch s).2.nextId :: s.openPages
       else s.openPages) ∧
    Extends (CaptureCall c) s (captureBody c o s).2 := by
  have hi := initializeTool_effect c o.launch s
  rcases hr : initializeTool o.launch s with ⟨r | b, s1⟩
  · -- the launch rejected
    rw [captureBody_launch_failed c o s s1 r hr]
    rw [hr] at hi
    dsimp only at hi
    have hres : pageResolves o s = false := by
      rcases initializeTool_cases o.launch s with
        ⟨b, _, h⟩ | ⟨_, _, h⟩ | ⟨msg, hb, hl, h⟩
      · rw [h] at hr; cases hr
      · rw [h] at hr; cases hr
      · simp [pageResolves, hb, hl]
    refine ⟨rfl, rfl, hi.1, ?_, hi.2.2⟩
    simp [hres, hi.2.1]
  · rw [hr] at hi
    dsimp only at hi
    have hinit : (s.browser.isSome || o.launch.isNone) = true := by
      rcases initializeTool_cases o.launch s with
        ⟨b, hb, h⟩ | ⟨_, hl, h⟩ | ⟨msg, hb, hl, h⟩
      · simp [hb]
      · simp [hl]
      · rw [h] at hr; cases hr
    cases hp : o.newPage with
    | some msg =>
      rw [captureBody_newPage_failed c o s s1 b msg hr hp]
      have hres : pageResolves o s = false := by simp [pageResolves, hp]
      refine ⟨rfl, rfl, hi.1, ?_, ?_⟩
      · simp [hres, hi.2.1]
      · exact (Frame.extends _).trans _ _ _ hi.2.2 (extends_emit _ _ (by simp [CaptureCall]) _)
    | none =>
      rw [captureBody_on_page c o s s1 b hr hp]
      have hres : pageResolves o s = true := by
        unfold pageResolves
        rw [hinit, hp]
        rfl
      obtain ⟨⟨h1, h2, h3, h4, _⟩, h6⟩ :=
        (captureOn_steps c o s1.nextId).run (pageOpened b s1)
      refine ⟨h1, h2, h3.trans hi.1, ?_, ?_⟩
      · rw [h4, hres]
        simp [pageOpened, hi.2.1]
      · refine (Frame.extends _).trans _ _ _ hi.2.2 ((Frame.extends _).trans _ _ _ ?_
          (extends_mono (fun _ h => Or.inr (Or.inr h)) _ _ h6))
        exact extends_emit _ _ (by simp [CaptureCall]) _


/-- The effect of `takeScreenshot` on the browser, the pages and the trace. -/
theorem takeScreenshot_effect (c : Config) (o : Outcomes) (s : State) :
    (takeScreenshot c o s).2.browser = (initializeTool o.launch s).2.browser ∧
    (takeScreenshot c o s).2.launched = (initializeTool o.launch s).2.launched ∧
    (takeScreenshot c o s).2.terminated = s.terminated ∧
    (takeScreenshot c o s).2.openPages =
      (if pageResolves o s then (initializeTool o.launch s).2.nextId :: s.openPages
       else s.openPages) ∧
    Extends (CaptureCall c) s (takeScreenshot c o s).2 := by
  obtain ⟨f1, f2, f3, f4, f5, _⟩ := takeScreenshot_fields c o s
  obtain ⟨e1, e2, e3, e4, l, hl, hP⟩ := captureBody_effect c o s
  exact ⟨f1.trans e1, f2.trans e2, f3.trans e3, f4.trans e4, l, f5.trans hl, hP⟩

/-- Every call `takeScreenshot` adds to the trace is one of its library calls. -/
theorem newCalls_captureCall (c : Config) (o : Outcomes) (s : State) :
    ∀ call ∈ newCalls c o s, CaptureCall c call := by
  obtain ⟨_, _, _, _, l, hl, hP⟩ := takeScreenshot_effect c o s
  intro call hc
  unfold newCalls at hc
  rw [hl, List.drop_left] at hc
  exact hP call hc

/-- C2 (as stated, refuted): a successful default capture on a fresh tool
returns with one page open where none was open before. -/
theorem page_count_counterexample :
    (takeScreenshot { url := .str "https://example.com" } {} State.init).1
        = .saved (.str "screenshot.png") ∧
      (takeScreenshot { url := .str "https://example.com" } {} State.init).2.openPages.length
        ≠ State.init.openPages.length := by
  decide

/-- C2 (amended): `takeScreenshot` never closes a page.  It makes no
`page.close()` call; the pages open after the call are those open before it
plus, when `browser.newPage()` was reached and resolved, the page it opened; so
the number of open pages grows by one exactly then and is unchanged otherwise. -/
theorem takeScreenshot_leaves_page_open (c : Config) (o : Outcomes) (s : State) :
    (∀ page, Call.pageClose page ∉ newCalls c o s) ∧
    (takeScreenshot c o s).2.openPages =
      (if pageResolves o s then (initializeTool o.launch s).2.nextId :: s.openPages
       else s.openPages) ∧
    (takeScreenshot c o s).2.openPages.length =
      s.openPages.length + (if pageResolves o s then 1 else 0) := by
  obtain ⟨_, _, _, h4, _⟩ := takeScreenshot_effect c o s
  refine ⟨?_, h4, ?_⟩
  · intro page hmem
    simpa [CaptureCall, PageCall] using newCalls_captureCall c o s _ hmem
  · rw [h4]
    split <;> simp

theorem truthy_orDefault_null (v : JsVal) : (v.orDefault .null).truthy = v.truthy := by
  cases v <;> rfl

theorem orDefault_of_truthy (v d : JsVal) (h : v.truthy = true) : v.orDefault d = v := by
  cases v <;> first | rfl | cases h

/-- C4 (as stated, refuted): with `selector` set and a `clipArea` given, the
options handed to `element.screenshot` carry `clip` equal to that `clipArea`. -/
theorem clip_with_selector_counterexample :
    clipConfig.selector = .str "#main" ∧ clipOptions.clip = some exampleRect ∧
      Call.elementScreenshot 1 clipOptions ∈ newCalls clipConfig {} State.init := by
  decide

/-- C4 (amended): the options of every screenshot call `takeScreenshot` makes,
`element.screenshot` included, carry `clip` equal to `clipArea` exactly when
`clipArea` is given (truthy), and no `clip` otherwise; `selector` plays no part. -/
theorem clip_follows_clipArea (c : Config) (o : Outcomes) (s : State) (call : Call)
    (options : ScreenshotOptions) (hcall : call ∈ newCalls c o s)
    (hopts : call.options = some options) :
    options.clip = if c.clipArea.truthy then some c.clipArea else none := by
  have h := newCalls_captureCall c o s call hcall
  have ho : options = c.options := by
    cases call <;> simp [Call.options] at hopts <;> simp [CaptureCall, PageCall] at h <;>
      rw [← hopts, h]
  rw [ho]
  unfold Config.options screenshotOptions
  rw [truthy_orDefault_null]
  cases ht : c.clipArea.truthy
  · simp
    split <;> rfl
  · simp [orDefault_of_truthy _ _ ht]


/-- C4 (amended), at a request with both `selector` and `clipArea`. -/
theorem clip_follows_clipArea_witness :
    clipOptions.clip = if clipConfig.clipArea.truthy then some clipConfig.clipArea else none :=
  clip_follows_clipArea clipConfig {} State.init (Call.elementScreenshot 1 clipOptions)
    clipOptions (by decide) rfl

/-- C5: the options of every screenshot call `takeScreenshot` makes carry
`quality` equal to the requested quality (80 when none was given) exactly when
`format` is `jpeg` or `webp`; for any other format, `png` and the default
included, they carry no `quality` field. -/
theorem quality_only_for_lossy (c : Config) (o : Outcomes) (s : State) (call : Call)
    (options : ScreenshotOptions) (hcall : call ∈ newCalls c o s)
    (hopts : call.options = some options) :
    options.quality =
      if c.format = .str "jpeg" ∨ c.format = .str "webp" then some (c.quality.orDefault (.num 80))
      else none := by
  have h := newCalls_captureCall c o s call hcall
  have ho : options = c.options := by
    cases call <;> simp [Call.options] at hopts <;> simp [CaptureCall, PageCall] at h <;>
      rw [← hopts, h]
  rw [ho]
  unfold Config.options screenshotOptions
  have hf : (c.format.orDefault (.str "png") = .str "jpeg" ∨
      c.format.orDefault (.str "png") = .str "webp") ↔
      (c.format = .str "jpeg" ∨ c.format = .str "webp") := by
    cases hfmt : c.format <;> simp [JsVal.orDefault]
  by_cases hl : c.format = .str "jpeg" ∨ c.format = .str "webp"
  · simp only [hf, hl, if_true]
    split <;> rfl
  · simp only [hf, hl, if_false]
    split <;> rfl

/-- C5, at `format = "jpeg"`, `quality = 50`: the options carry `quality = 50`. -/
theorem quality_only_for_lossy_witness :
    jpegOptions.quality =
      if jpegConfig.format = .str "jpeg" ∨ jpegConfig.format = .str "webp"
      then some (jpegConfig.quality.orDefault (.num 80)) else none :=
  quality_only_for_lossy jpegConfig {} State.init (Call.pageScreenshot 1 jpegOptions)
    jpegOptions (by decide) rfl

theorem captureOn_selector_not_found (c : Config) (o : Outcomes) (page : Nat) (s : State)
    (sel : String) (hsel : c.selector = .str sel) (hne : sel ≠ "")
    (hvp : o.setViewport = none) (hgoto : o.goto = none)
    (hwait : c.waitForSelector.truthy = true → o.waitForSelector = none)
    (hq : o.query = .ok false) :
    ∃ calls, captureOn c o page s =
        (.error ("Element with selector \"" ++ sel ++ "\" not found"),
         { s with trace := s.trace ++ calls }) ∧
      ∀ call ∈ calls, call.options = none := by
  have hs1 : (c.selector.orDefault .null) = .str sel := by simp [hsel, JsVal.orDefault]
  have hs2 : (JsVal.str sel).truthy = true := by simp [JsVal.truthy, hne]
  cases hw : c.waitForSelector.truthy
  · refine ⟨[.setViewport page (c.viewportConfig.orDefault
      (.obj [("width", 1920), ("height", 1080), ("deviceScaleFactor", 1)])),
      .goto page c.url (c.timeout.orDefault (.num 30000)), .query page (.str sel)], ?_, ?_⟩
    · unfold captureOn
      simp [Js.run_bind, Js.run_emit, Js.run_settle_none, Js.run_raise, Js.run_pure, hvp, hgoto,
        hq, hs1, hs2, truthy_orDefault_null, hw, JsVal.toStr]
    · intro call hc
      simp at hc
      rcases hc with h | h | h <;> rw [h] <;> rfl
  · refine ⟨[.setViewport page (c.viewportConfig.orDefault
      (.obj [("width", 1920), ("height", 1080), ("deviceScaleFactor", 1)])),
      .goto page c.url (c.timeout.orDefault (.num 30000)),
      .waitForSelector page (c.waitForSelector.orDefault .null) (c.timeout.orDefault (.num 30000)),
      .query page (.str sel)], ?_, ?_⟩
    · unfold captureOn
      simp [Js.run_bind, Js.run_emit, Js.run_settle_none, Js.run_raise, Js.run_pure, hvp, hgoto,
        hq, hs1, hs2, truthy_orDefault_null, hw, hwait hw, JsVal.toStr]
    · intro call hc
      simp at hc
      rcases hc with h | h | h | h <;> rw [h] <;> rfl


/-- When the handle is set or the launch resolves, `initialize()` resolves, having
made at most the launch call and written no file. -/
theorem initializeTool_resolves (e : Option String) (s : State)
    (h : s.browser.isSome = true ∨ e = none) :
    ∃ b s1 calls, initializeTool e s = (.ok b, s1) ∧ s1.trace = s.trace ++ calls ∧
      (∀ call ∈ calls, call.options = none) ∧ s1.files = s.files := by
  rcases initializeTool_cases e s with ⟨b, _, hr⟩ | ⟨_, _, hr⟩ | ⟨msg, hb, he, _⟩
  · exact ⟨b, s, [], hr, by simp, by simp, rfl⟩
  · exact ⟨_, _, [Call.launch], hr, rfl, by simp [Call.options], rfl⟩
  · rcases h with h | h
    · simp [hb] at h
    · rw [he] at h; cases h

/-- C6: with a selector `sel` for which `page.$` finds no element (the browser
and the page being available, `setViewport`, `goto` and any `waitForSelector`
having resolved), `takeScreenshot` returns `{ success: false, error }` whose
message is `Element with selector "sel" not found`, makes no screenshot call
and writes no file. -/
theorem selector_not_found (c : Config) (o : Outcomes) (s : State) (sel : String)
    (hsel : c.selector = .str sel) (hne : sel ≠ "")
    (hinit : s.browser.isSome = true ∨ o.launch = none) (hpage : o.newPage = none)
    (hvp : o.setViewport = none) (hgoto : o.goto = none)
    (hwait : c.waitForSelector.truthy = true → o.waitForSelector = none)
    (hq : o.query = .ok false) :
    (takeScreenshot c o s).1 =
        .failure ("Element with selector \"" ++ sel ++ "\" not found") ∧
      (∀ call ∈ newCalls c o s, call.options = none) ∧
      (takeScreenshot c o s).2.files = s.files := by
  obtain ⟨b, s1, l0, hr, htr, hl0, hfiles⟩ := initializeTool_resolves o.launch s hinit
  obtain ⟨calls, hcap, hcalls⟩ :=
    captureOn_selector_not_found c o s1.nextId (pageOpened b s1) sel hsel hne hvp hgoto hwait hq
  have hbody := captureBody_on_page c o s s1 b hr hpage
  rw [hcap] at hbody
  refine ⟨?_, ?_, ?_⟩
  · unfold takeScreenshot
    rw [hbody]
  · intro call hc
    unfold newCalls takeScreenshot at hc
    rw [hbody] at hc
    simp only [pageOpened, htr, List.append_assoc, List.drop_left] at hc
    rcases List.mem_append.mp hc with h | h
    · exact hl0 call h
    · rcases List.mem_append.mp h with h | h
      · simp at h; rw [h]; rfl
      · exact hcalls call h
  · unfold takeScreenshot
    rw [hbody]
    exact hfiles

/-- C6, on a fresh tool with the selector `#missing`. -/
theorem selector_not_found_witness :
    (takeScreenshot { url := .str "https://example.com", selector := .str "#missing" }
        { query := .ok false } State.init).1 =
        .failure ("Element with selector \"" ++ "#missing" ++ "\" not found") ∧
      (∀ call ∈ newCalls { url := .str "https://example.com", selector := .str "#missing" }
        { query := .ok false } State.init, call.options = none) ∧
      (takeScreenshot { url := .str "https://example.com", selector := .str "#missing" }
        { query := .ok false } State.init).2.files = State.init.files :=
  selector_not_found { url := .str "https://example.com", selector := .str "#missing" }
    { query := .ok false } State.init "#missing" rfl (by decide) (Or.inr rfl) rfl rfl rfl
    (fun _ => rfl) rfl


/-- The handle `initialize()` resolves with is the one stored in `this.browser`. -/
theorem initializeTool_handle (e : Option String) (s s1 : State) (b : Nat)
    (h : initializeTool e s = (.ok b, s1)) : s1.browser = some b := by
  rcases initializeTool_cases e s with ⟨b1, hb, hr⟩ | ⟨_, _, hr⟩ | ⟨msg, _, _, hr⟩
  · rw [hr] at h
    cases h
    exact hb
  · rw [hr] at h
    cases h
    rfl
  · rw [hr] at h
    cases h

/-- A failing step on the page makes the `try` block throw its error. -/
theorem captureOn_rejects (c : Config) (o : Outcomes) (msg : String) (h : Rejects c o msg)
    (hpage : o.newPage = none) (page : Nat) (s : State) :
    (captureOn c o page s).1 = .error msg := by
  cases h with
  | newPage msg h1 => rw [hpage] at h1; cases h1
  | setViewport msg _ h2 =>
    unfold captureOn
    simp [Js.run_bind, Js.run_emit, Js.run_settle_some, h2]
  | goto msg _ h2 h3 =>
    unfold captureOn
    simp [Js.run_bind, Js.run_emit, Js.run_settle_none, Js.run_settle_some, h2, h3]
  | waitForSelector msg hn hw h5 =>
    obtain ⟨_, h2, h3⟩ := hn
    unfold captureOn
    simp [Js.run_bind, Js.run_emit, Js.run_settle_none, Js.run_settle_some, h2, h3,
      truthy_orDefault_null, hw, h5]
  | query msg hn hwait hsel hq =>
    obtain ⟨_, h2, h3⟩ := hn
    have h5 : c.waitForSelector.truthy = true → o.waitForSelector = none := hwait
    unfold captureOn
    cases hw : c.waitForSelector.truthy <;>
      simp [Js.run_bind, Js.run_emit, Js.run_settle_none, Js.run_raise, Js.run_pure, h2, h3,
        truthy_orDefault_null, hw, hsel, hq, h5]
  | notFound text hn hwait hsel hq htext =>
    obtain ⟨_, h2, h3⟩ := hn
    have h5 : c.waitForSelector.truthy = true → o.waitForSelector = none := hwait
    have hs : c.selector.orDefault .null = c.selector := orDefault_of_truthy _ _ hsel
    unfold captureOn
    cases hw : c.waitForSelector.truthy <;>
      simp [Js.run_bind, Js.run_emit, Js.run_settle_none, Js.run_raise, Js.run_pure, h2, h3,
        truthy_orDefault_null, hw, hsel, hq, h5, hs, htext]
  | notFoundTypeError msg hn hwait hsel hq htext =>
    obtain ⟨_, h2, h3⟩ := hn
    have h5 : c.waitForSelector.truthy = true → o.waitForSelector = none := hwait
    have hs : c.selector.orDefault .null = c.selector := orDefault_of_truthy _ _ hsel
    unfold captureOn
    cases hw : c.waitForSelector.truthy <;>
      simp [Js.run_bind, Js.run_emit, Js.run_settle_none, Js.run_raise, Js.run_pure, h2, h3,
        truthy_orDefault_null, hw, hsel, hq, h5, hs, htext]
  | screenshot msg hn hwait hq hshot =>
    obtain ⟨_, h2, h3⟩ := hn
    have h5 : c.waitForSelector.truthy = true → o.waitForSelector = none := hwait
    unfold captureOn doScreenshot
    cases hw : c.waitForSelector.truthy <;> cases hsel : c.selector.truthy <;>
      simp [Js.run_bind, Js.run_emit, Js.run_settle_none, Js.run_raise, Js.run_pure, h2, h3,
        truthy_orDefault_null, hw, hsel, hq, h5, hshot]

/-- A failing step after the handle is there makes the `try` block throw its error. -/
theorem captureBody_rejects (c : Config) (o : Outcomes) (s s1 : State) (b : Nat) (msg : String)
    (hacq : initializeTool o.launch s = (.ok b, s1)) (hfail : Rejects c o msg) :
    (captureBody c o s).1 = .error msg := by
  cases hp : o.newPage with
  | some m =>
    rw [captureBody_newPage_failed c o s s1 b m hacq hp]
    have hm : m = msg := by
      cases hfail with
      | newPage _ h1 => rw [hp] at h1; exact Option.some.inj h1
      | setViewport _ h1 _ => rw [hp] at h1; cases h1
      | goto _ h1 _ _ => rw [hp] at h1; cases h1
      | waitForSelector _ hn _ _ => have h1 := hn.1; rw [hp] at h1; cases h1
      | query _ hn _ _ _ => have h1 := hn.1; rw [hp] at h1; cases h1
      | notFound _ hn _ _ _ _ => have h1 := hn.1; rw [hp] at h1; cases h1
      | notFoundTypeError _ hn _ _ _ _ => have h1 := hn.1; rw [hp] at h1; cases h1
      | screenshot _ hn _ _ _ => have h1 := hn.1; rw [hp] at h1; cases h1
    rw [hm]
  | none =>
    rw [captureBody_on_page c o s s1 b hacq hp]
    exact captureOn_rejects c o msg hfail hp _ _

/-- C8: when the browser handle was acquired (`initialize()` resolved with the
handle `b`) and a later step fails with message `msg` (`newPage`,
`setViewport`, `goto` or `waitForSelector` rejecting, `page.$` rejecting or
finding no element, the screenshot call rejecting), `takeScreenshot` returns
`{ success: false, error: msg }`, the handle stored in the tool is still `b`,
no browser was terminated and no `browser.close()` call was made. -/
theorem failed_capture_keeps_browser (c : Config) (o : Outcomes) (s s1 : State) (b : Nat)
    (msg : String) (hacq : initializeTool o.launch s = (.ok b, s1))
    (hfail : Rejects c o msg) :
    (takeScreenshot c o s).1 = .failure msg ∧
      s1.browser = some b ∧
      (takeScreenshot c o s).2.browser = some b ∧
      (takeScreenshot c o s).2.terminated = s.terminated ∧
      (∀ x, Call.browserClose x ∉ newCalls c o s) := by
  obtain ⟨h1, _, h3, _, _⟩ := takeScreenshot_effect c o s
  have hb := initializeTool_handle o.launch s s1 b hacq
  have hthrow := captureBody_rejects c o s s1 b msg hacq hfail
  refine ⟨?_, hb, ?_, h3, ?_⟩
  · unfold takeScreenshot
    rcases hcb : captureBody c o s with ⟨r, u⟩
    rw [hcb] at hthrow
    dsimp only at hthrow
    rw [hthrow]
  · rw [h1, hacq]
    exact hb
  · intro x hmem
    simpa [CaptureCall, PageCall] using newCalls_captureCall c o s _ hmem

/-- C8, at a navigation failure on a fresh tool. -/
theorem failed_capture_keeps_browser_witness :
    (takeScreenshot { url := badDomain } gotoFails State.init).1
        = .failure "net::ERR_NAME_NOT_RESOLVED" ∧
      (initializeTool none State.init).2.browser = some 0 ∧
      (takeScreenshot { url := badDomain } gotoFails State.init).2.browser = some 0 ∧
      (takeScreenshot { url := badDomain } gotoFails State.init).2.terminated
        = State.init.terminated ∧
      (∀ x, Call.browserClose x ∉ newCalls { url := badDomain } gotoFails State.init) :=
  failed_capture_keeps_browser { url := badDomain } gotoFails State.init
    (initializeTool none State.init).2 0 "net::ERR_NAME_NOT_RESOLVED" rfl
    (Rejects.goto _ rfl rfl rfl)

/-- The launch calls of a `takeScreenshot` are those of its `initialize()`. -/
theorem launchCalls_takeScreenshot (c : Config) (o : Outcomes) (s : State) :
    launchCalls (takeScreenshot c o s).2 = launchCalls (initializeTool o.launch s).2 := by
  obtain ⟨_, _, _, _, ht, _⟩ := takeScreenshot_fields c o s
  unfold launchCalls
  rw [ht]
  rcases hr : initializeTool o.launch s with ⟨r | b, s1⟩
  · rw [captureBody_launch_failed c o s s1 r hr]
  · cases hp : o.newPage with
    | some msg =>
      rw [captureBody_newPage_failed c o s s1 b msg hr hp]
      simp [List.count_append]
    | none =>
      rw [captureBody_on_page c o s s1 b hr hp]
      obtain ⟨_, l, hl, hP⟩ := (captureOn_steps c o s1.nextId).run (pageOpened b s1)
      rw [hl]
      have h0 : List.count Call.launch l = 0 := by
        rw [List.count_eq_zero]
        intro hmem
        simpa [PageCall] using hP _ hmem
      simp [pageOpened, List.count_append, h0]

/-- A call other than `close()` on a tool whose handle is set keeps the handle
and neither launches nor tries to launch a browser. -/
theorem Op.run_keeps_handle (op : Op) (hop : op.isClose = false) (s : State) (b : Nat)
    (hb : s.browser = some b) :
    (op.run s).browser = some b ∧ (op.run s).launched = s.launched ∧
      launchCalls (op.run s) = launchCalls s := by
  cases op with
  | init e =>
    show (initializeTool e s).2.browser = some b ∧
      (initializeTool e s).2.launched = s.launched ∧
      launchCalls (initializeTool e s).2 = launchCalls s
    rw [initializeTool_some e s b hb]
    exact ⟨hb, rfl, rfl⟩
  | shot c o =>
    obtain ⟨h1, h2, _⟩ := takeScreenshot_effect c o s
    have h3 := launchCalls_takeScreenshot c o s
    rw [initializeTool_some o.launch s b hb] at h1 h2 h3
    exact ⟨h1.trans hb, h2, h3⟩
  | close e => cases hop

/-- A call other than `close()` on a tool without a handle either leaves it so
and launches nothing, or launches one browser and stores its handle. -/
theorem Op.run_from_none (op : Op) (hop : op.isClose = false) (s : State)
    (hb : s.browser = none) :
    ((op.run s).browser = none ∧ (op.run s).launched = s.launched) ∨
      ((op.run s).browser.isSome = true ∧
        (op.run s).launched.length = s.launched.length + 1) := by
  have key : ∀ e, ((initializeTool e s).2.browser = none ∧
      (initializeTool e s).2.launched = s.launched) ∨
      ((initializeTool e s).2.browser.isSome = true ∧
        (initializeTool e s).2.launched.length = s.launched.length + 1) := by
    intro e
    rcases initializeTool_cases e s with ⟨b, hb1, _⟩ | ⟨_, _, hr⟩ | ⟨msg, _, _, hr⟩
    · rw [hb] at hb1; cases hb1
    · rw [hr]; exact Or.inr ⟨rfl, by simp⟩
    · rw [hr]; exact Or.inl ⟨hb, rfl⟩
  cases op with
  | init e => exact key e
  | shot c o =>
    obtain ⟨h1, h2, _⟩ := takeScreenshot_effect c o s
    simp only [Op.run]
    rw [h1, h2]
    exact key o.launch
  | close e => cases hop


theorem runOps_cons (op : Op) (ops : List Op) (s : State) :
    runOps (op :: ops) s = runOps ops (op.run s) := rfl

/-- Once the handle is set, a run without `close()` keeps it and makes no launch call. -/
theorem runOps_keeps_handle (ops : List Op) (hops : ∀ op ∈ ops, op.isClose = false) (s : State)
    (b : Nat) (hb : s.browser = some b) :
    (runOps ops s).browser = some b ∧ (runOps ops s).launched = s.launched ∧
      launchCalls (runOps ops s) = launchCalls s := by
  induction ops generalizing s with
  | nil => exact ⟨hb, rfl, rfl⟩
  | cons op ops ih =>
    obtain ⟨h1, h2, h3⟩ := Op.run_keeps_handle op (hops op (List.mem_cons_self _ _)) s b hb
    obtain ⟨k1, k2, k3⟩ := ih (fun x hx => hops x (List.mem_cons_of_mem _ hx)) (op.run s) h1
    rw [runOps_cons]
    exact ⟨k1, k2.trans h2, k3.trans h3⟩

theorem runOps_launched_le (ops : List Op) (hops : ∀ op ∈ ops, op.isClose = false) (s : State) :
    (runOps ops s).launched.length ≤ s.launched.length + 1 := by
  induction ops generalizing s with
  | nil => exact Nat.le_succ _
  | cons op ops ih =>
    have hop := hops op (List.mem_cons_self _ _)
    have hrest : ∀ x ∈ ops, x.isClose = false := fun x hx => hops x (List.mem_cons_of_mem _ hx)
    rw [runOps_cons]
    rcases Option.eq_none_or_eq_some s.browser with hb | ⟨b, hb⟩
    · rcases Op.run_from_none op hop s hb with ⟨_, h2⟩ | ⟨h1, h2⟩
      · have := ih hrest (op.run s)
        rw [h2] at this
        exact this
      · obtain ⟨b1, hb1⟩ := Option.isSome_iff_exists.mp h1
        obtain ⟨_, k2, _⟩ := runOps_keeps_handle ops hrest (op.run s) b1 hb1
        rw [k2, h2]
    · obtain ⟨h1, h2, _⟩ := Op.run_keeps_handle op hop s b hb
      obtain ⟨_, k2, _⟩ := runOps_keeps_handle ops hrest (op.run s) b h1
      rw [k2, h2]
      exact Nat.le_succ _

/-- A call other than `close()` whose launch resolves, on a tool without a
handle, makes exactly one launch call and stores a handle. -/
theorem Op.run_launches (op : Op) (hop : op.isClose = false) (hl : op.launchResolves = true)
    (s : State) (hb : s.browser = none) :
    (op.run s).browser.isSome = true ∧ launchCalls (op.run s) = launchCalls s + 1 := by
  have key : (initializeTool none s).2.browser.isSome = true ∧
      launchCalls (initializeTool none s).2 = launchCalls s + 1 := by
    rw [initializeTool_none_ok s hb]
    exact ⟨rfl, by simp [launchCalls, List.count_append]⟩
  cases op with
  | init e =>
    have he : e = none := by simpa [Op.launchResolves] using hl
    subst he
    exact key
  | shot c o =>
    have he : o.launch = none := by simpa [Op.launchResolves] using hl
    obtain ⟨h1, _⟩ := takeScreenshot_effect c o s
    have h3 := launchCalls_takeScreenshot c o s
    rw [he] at h1 h3
    simp only [Op.run]
    rw [h1, h3]
    exact key
  | close e => cases hop

theorem runOps_launchCalls_le (ops : List Op) (hops : ∀ op ∈ ops, op.isClose = false)
    (hl : ∀ op ∈ ops, op.launchResolves = true) (s : State) :
    launchCalls (runOps ops s) ≤ launchCalls s + 1 := by
  cases ops with
  | nil => exact Nat.le_succ _
  | cons op ops =>
    have hop := hops op (List.mem_cons_self _ _)
    have hrest : ∀ x ∈ ops, x.isClose = false := fun x hx => hops x (List.mem_cons_of_mem _ hx)
    rw [runOps_cons]
    rcases Option.eq_none_or_eq_some s.browser with hb | ⟨b, hb⟩
    · obtain ⟨h1, h2⟩ := Op.run_launches op hop (hl op (List.mem_cons_self _ _)) s hb
      obtain ⟨b1, hb1⟩ := Option.isSome_iff_exists.mp h1
      obtain ⟨_, _, k3⟩ := runOps_keeps_handle ops hrest (op.run s) b1 hb1
      rw [k3, h2]
    · obtain ⟨h1, _, h3⟩ := Op.run_keeps_handle op hop s b hb
      obtain ⟨_, _, k3⟩ := runOps_keeps_handle ops hrest (op.run s) b h1
      rw [k3, h3]
      exact Nat.le_succ _

/-- C7: in a sequential run of `initialize()` and `takeScreenshot()` calls
without `close()`, from any state `s`, at most one browser is launched, and
when every launch resolves `puppeteer.launch` is called at most once; from a
state `t` whose handle is set, the run makes no launch call at all and keeps
the handle, and `initialize()` resolves with that handle and changes nothing. -/
theorem browser_launched_at_most_once (ops : List Op) (hops : ∀ op ∈ ops, op.isClose = false)
    (s t : State) (b : Nat) (hb : t.browser = some b) (e : Option String) :
    (runOps ops s).launched.length ≤ s.launched.length + 1 ∧
      ((∀ op ∈ ops, op.launchResolves = true) →
        launchCalls (runOps ops s) ≤ launchCalls s + 1) ∧
      ((runOps ops t).browser = some b ∧ (runOps ops t).launched = t.launched ∧
        launchCalls (runOps ops t) = launchCalls t) ∧
      initializeTool e t = (.ok b, t) :=
  ⟨runOps_launched_le ops hops s, fun hl => runOps_launchCalls_le ops hops hl s,
    runOps_keeps_handle ops hops t b hb, initializeTool_some e t b hb⟩

/-- C7, on two captures and an `initialize()`: from a fresh tool, and from the
tool as the first capture leaves it (handle 0). -/
theorem browser_launched_at_most_once_witness :
    (runOps exampleRun State.init).launched.length ≤ State.init.launched.length + 1 ∧
      ((∀ op ∈ exampleRun, op.launchResolves = true) →
        launchCalls (runOps exampleRun State.init) ≤ launchCalls State.init + 1) ∧
      ((runOps exampleRun (runOps exampleRun State.init)).browser = some 0 ∧
        (runOps exampleRun (runOps exampleRun State.init)).launched
          = (runOps exampleRun State.init).launched ∧
        launchCalls (runOps exampleRun (runOps exampleRun State.init))
          = launchCalls (runOps exampleRun State.init)) ∧
      initializeTool (some "spawn ENOENT") (runOps exampleRun State.init)
        = (.ok 0, runOps exampleRun State.init) :=
  browser_launched_at_most_once exampleRun (by decide) State.init
    (runOps exampleRun State.init) 0 (by decide) (some "spawn ENOENT")


/-- C1 (the code at the failing input): the same failed capture is answered
with 500 and the failure result in file mode, but with 200 and
`{ success: true, base64: { success: false, error } }` when `returnBase64` is true. -/
theorem failed_base64_capture_answers_200 :
    (serve exampleHost { url := badDomain } gotoFails {} State.init).1
        = { status := 500, body := .result (.failure "net::ERR_NAME_NOT_RESOLVED") } ∧
      (serve exampleHost { url := badDomain, returnBase64 := .bool true } gotoFails {}
        State.init).1
        = { status := 200, body := .base64 (.failure "net::ERR_NAME_NOT_RESOLVED") } := by
  decide

/-- C3: a request whose `url` is absent or falsy is answered with 400 and
`{ error: 'URL is required' }`, and the state is exactly what it was: no
library call (so no page), no file, nothing on the console. -/
theorem missing_url_rejected (h : Host) (body : Config) (o : Outcomes) (d : Delivery) (s : State)
    (hurl : body.url.truthy = false) :
    serve h body o d s = ({ status := 400, body := .errorOnly "URL is required" }, s) := by
  have hb : handlerBody h body o s
      = (.ok { status := 400, body := .errorOnly "URL is required" }, s) := by
    unfold handlerBody
    simp [hurl, Js.run_pure]
  unfold serve postScreenshot
  rw [hb]

/-- C3, at the empty string. -/
theorem missing_url_rejected_witness :
    serve exampleHost { url := .str "" } {} {} State.init
      = ({ status := 400, body := .errorOnly "URL is required" }, State.init) :=
  missing_url_rejected exampleHost { url := .str "" } {} {} State.init rfl

/-- C10 (as stated, refuted): on a tool holding the handle 0, a `close()` whose
`browser.close()` rejects leaves the handle set and the browser not terminated,
and the next `close()` calls `browser.close()` a second time. -/
theorem close_rejected_counterexample :
    (runOps exampleRun State.init).browser = some 0 ∧
      closeRejected.browser = some 0 ∧ closeRejected.terminated = [] ∧
      (close none closeRejected).2.trace.count (Call.browserClose 0) = 2 := by
  decide

/-- C10 (amended): `close()` on a tool holding the handle `b` calls
`browser.close()` once; when that call resolves the browser is terminated and
the handle is null, when it rejects `close()` rejects with the same error and
the handle is kept.  On a tool `t` whose handle is null, `close()` makes no
call and changes nothing, so a `close()` after one that resolved is a no-op.
The next `initialize()` then calls `puppeteer.launch` again: it stores a new
handle when the launch resolves and leaves the handle null when it rejects. -/
theorem close_clears_handle (s t : State) (b : Nat) (hb : s.browser = some b)
    (ht : t.browser = none) (e : Option String) (msg : String) :
    close none s =
        (.ok (), { s with trace := s.trace ++ [Call.browserClose b], browser := none,
                          terminated := b :: s.terminated }) ∧
      close (some msg) s =
        (.error msg, { s with trace := s.trace ++ [Call.browserClose b] }) ∧
      close e t = (.ok (), t) ∧
      close e (close none s).2 = (.ok (), (close none s).2) ∧
      initializeTool none (close none s).2 =
        (.ok s.nextId,
         { s with trace := s.trace ++ [Call.browserClose b, Call.launch],
                  browser := some s.nextId, nextId := s.nextId + 1,
                  launched := s.nextId :: s.launched, terminated := b :: s.terminated }) ∧
      initializeTool (some msg) (close none s).2 =
        (.error msg,
         { s with trace := s.trace ++ [Call.browserClose b, Call.launch], browser := none,
                  terminated := b :: s.terminated }) := by
  have h1 : close none s =
      (.ok (), { s with trace := s.trace ++ [Call.browserClose b], browser := none,
                        terminated := b :: s.terminated }) := by
    unfold close
    simp [Js.run_bind, Js.run_get, Js.run_emit, Js.run_modify, Js.run_settle_none, hb]
  have h2 : ∀ u : State, u.browser = none → close e u = (.ok (), u) := by
    intro u hu
    unfold close
    simp [Js.run_bind, Js.run_get, Js.run_pure, hu]
  have h3 : close (some msg) s =
      (.error msg, { s with trace := s.trace ++ [Call.browserClose b] }) := by
    unfold close
    simp [Js.run_bind, Js.run_get, Js.run_emit, Js.run_settle_some, hb]
  refine ⟨h1, h3, h2 t ht, ?_, ?_, ?_⟩
  · apply h2
    rw [h1]
  · rw [h1]
    rw [initializeTool_none_ok _ rfl]
    simp
  · rw [h1]
    rw [initializeTool_none_error msg _ rfl]
    simp

/-- C10 (amended), on the tool as `exampleRun` leaves it, and on a fresh tool. -/
theorem close_clears_handle_witness :
    close none (runOps exampleRun State.init) =
        (.ok (), { (runOps exampleRun State.init) with
          trace := (runOps exampleRun State.init).trace ++ [Call.browserClose 0],
          browser := none, terminated := 0 :: (runOps exampleRun State.init).terminated }) ∧
      close (some "Protocol error") (runOps exampleRun State.init) =
        (.error "Protocol error", { (runOps exampleRun State.init) with
          trace := (runOps exampleRun State.init).trace ++ [Call.browserClose 0] }) ∧
      close none State.init = (.ok (), State.init) ∧
      close none (close none (runOps exampleRun State.init)).2
        = (.ok (), (close none (runOps exampleRun State.init)).2) ∧
      initializeTool none (close none (runOps exampleRun State.init)).2 =
        (.ok (runOps exampleRun State.init).nextId,
         { (runOps exampleRun State.init) with
            trace := (runOps exampleRun State.init).trace ++ [Call.browserClose 0, Call.launch],
            browser := some (runOps exampleRun State.init).nextId,
            nextId := (runOps exampleRun State.init).nextId + 1,
            launched := (runOps exampleRun State.init).nextId
              :: (runOps exampleRun State.init).launched,
            terminated := 0 :: (runOps exampleRun State.init).terminated }) ∧
      initializeTool (some "Protocol error") (close none (runOps exampleRun State.init)).2 =
        (.error "Protocol error",
         { (runOps exampleRun State.init) with
            trace := (runOps exampleRun State.init).trace ++ [Call.browserClose 0, Call.launch],
            browser := none, terminated := 0 :: (runOps exampleRun State.init).terminated }) :=
  close_clears_handle (runOps exampleRun State.init) State.init 0 (by decide) rfl none
    "Protocol error"

theorem truthy_orDefault_false (v : JsVal) : (v.orDefault (.bool false)).truthy = v.truthy := by
  cases v <;> rfl

/-- In file mode, after a successful capture whose file is on disk, the handler
hands the file to `res.sendFile` with status 200 and leaves the state as the
capture left it. -/
theorem postScreenshot_file (h : Host) (body : Config) (o : Outcomes) (s : State) (f : String)
    (hurl : body.url.truthy = true) (hmode : body.returnBase64.truthy = false)
    (hname : filename h body = .ok (.str f))
    (hok : (takeScreenshot (captureConfig body (h.join f)) o s).1.success = true)
    (hfile : h.join f ∈ (takeScreenshot (captureConfig body (h.join f)) o s).2.files) :
    postScreenshot h body o s =
      ({ status := 200, body := .file (h.join f) },
       (takeScreenshot (captureConfig body (h.join f)) o s).2) := by
  have hb : handlerBody h body o s =
      (.ok { status := 200, body := .file (h.join f) },
       (takeScreenshot (captureConfig body (h.join f)) o s).2) := by
    unfold handlerBody
    simp [hurl, hmode, hname, hok, hfile, Js.run_bind, Js.run_pure, Js.run_get,
      truthy_orDefault_false]
  unfold postScreenshot
  rw [hb]


/-- The `sendFile` callback on a file that is on disk: when the unlink resolves
the file is gone, when it rejects the error is written on the console; a send
error changes neither. -/
theorem sendFileCallback_effect (path : String) (d : Delivery) (s : State)
    (hfile : path ∈ s.files) :
    (d.unlink = none → path ∉ (sendFileCallback path d s).2.files) ∧
      (∀ err, d.unlink = some err →
        "Error deleting file: " ++ err ∈ (sendFileCallback path d s).2.console ∧
        (sendFileCallback path d s).2.files = s.files) := by
  rcases d with ⟨send, unlink⟩
  constructor
  · intro hu
    simp only at hu
    subst hu
    unfold sendFileCallback
    cases send <;>
      simp [Js.run_bind, Js.run_get, Js.run_pure, Js.run_modify, consoleLine, hfile]
  · intro err hu
    simp only at hu
    subst hu
    unfold sendFileCallback
    cases send <;>
      simp [Js.run_bind, Js.run_get, Js.run_pure, Js.run_modify, consoleLine, hfile]

/-- C9: in file mode (`returnBase64` falsy), after a successful capture whose
output file is on disk, the handler hands that file to `res.sendFile` with
status 200; once the callback has run, whether or not the send reported an
error, the file is gone when the unlink resolved, and when the unlink rejected
the error is only written on the console; the response is the one the handler
produced, untouched by the callback. -/
theorem file_deleted_after_send (h : Host) (body : Config) (o : Outcomes) (d : Delivery)
    (s : State) (f : String)
    (hurl : body.url.truthy = true) (hmode : body.returnBase64.truthy = false)
    (hname : filename h body = .ok (.str f))
    (hok : (takeScreenshot (captureConfig body (h.join f)) o s).1.success = true)
    (hfile : h.join f ∈ (takeScreenshot (captureConfig body (h.join f)) o s).2.files) :
    (serve h body o d s).1 = { status := 200, body := .file (h.join f) } ∧
      (d.unlink = none → h.join f ∉ (serve h body o d s).2.files) ∧
      (∀ err, d.unlink = some err →
        "Error deleting file: " ++ err ∈ (serve h body o d s).2.console) ∧
      (serve h body o d s).1 = (postScreenshot h body o s).1 := by
  have hp := postScreenshot_file h body o s f hurl hmode hname hok hfile
  have hs : serve h body o d s =
      ({ status := 200, body := .file (h.join f) },
       (sendFileCallback (h.join f) d
          (takeScreenshot (captureConfig body (h.join f)) o s).2).2) := by
    unfold serve
    rw [hp]
  obtain ⟨e1, e2⟩ := sendFileCallback_effect (h.join f) d _ hfile
  rw [hs, hp]
  exact ⟨rfl, e1, fun err he => (e2 err he).1, rfl⟩

/-- C9, at a request that only gives the `url`, with a send error. -/
theorem file_deleted_after_send_witness :
    (serve exampleHost { url := .str "https://example.com" } {} abortedSend State.init).1
        = { status := 200, body := .file (exampleHost.join "screenshot-7.png") } ∧
      (abortedSend.unlink = none → exampleHost.join "screenshot-7.png" ∉
        (serve exampleHost { url := .str "https://example.com" } {} abortedSend
          State.init).2.files) ∧
      (∀ err, abortedSend.unlink = some err → "Error deleting file: " ++ err ∈
        (serve exampleHost { url := .str "https://example.com" } {} abortedSend
          State.init).2.console) ∧
      (serve exampleHost { url := .str "https://example.com" } {} abortedSend State.init).1
        = (postScreenshot exampleHost { url := .str "https://example.com" } {} State.init).1 :=
  file_deleted_after_send exampleHost { url := .str "https://example.com" } {} abortedSend
    State.init "screenshot-7.png" rfl rfl rfl (by decide) (by decide)


end ScreenshotApi
